import Mathlib

/-!
Verification of the queue-migration tool (queue_migrator.py, message_utils.py,
utils.py, queue_utils.py, migration_planner.py) against its specification.

Python dictionaries of queue arguments are modelled as association lists
`Dict` of string keys to string values; external calls (HTTP control-plane,
AMQP data-plane) are modelled by explicit environments recording their
results, and the orchestration procedures become pure functions from those
environments to a trace of issued control-plane actions plus an outcome.
-/

/-- An arguments mapping (Python `dict`): association list of key/value pairs. -/
abbrev Dict := List (String × String)

/-- Membership test for a key, as Python `key in d`. -/
def dictContains (d : Dict) (k : String) : Bool :=
  d.any (fun p => p.1 == k)

/-- Lookup, as Python `d[key]` / `d.get(key)`. -/
def dictGet (d : Dict) (k : String) : Option String :=
  (d.find? (fun p => p.1 == k)).map (fun p => p.2)

/-- Key removal, as Python `d.pop(key)` (on a dict every key is unique;
on the association list we drop every pair with that key). -/
def dictPop (d : Dict) (k : String) : Dict :=
  d.filter (fun p => !(p.1 == k))

/-- Assignment, as Python `d[key] = v`: replace the value at `key` if present,
otherwise append the new pair. -/
def dictSet (d : Dict) (k v : String) : Dict :=
  if dictContains d k then d.map (fun p => if p.1 == k then (k, v) else p)
  else d ++ [(k, v)]

/-- `utils.UNSUPPORTED_FEATURES` (utils.py): per queue type, the argument keys
a queue of that type does not support; `.get(queue_type, [])` semantics. -/
def UNSUPPORTED_FEATURES (queue_type : String) : List String :=
  if queue_type == "quorum" then
    ["exclusive", "auto-delete", "x-max-priority", "x-queue-master-locator",
     "x-queue-version", "x-queue-mode"]
  else []

/-- The `for key in UNSUPPORTED_FEATURES.get(queue_type, [])` loop of
`utils.remove_unsupported_keys`: pop each unsupported key present in the
copy, recording the keys actually removed. -/
def rukLoop (keys : List String) (args : Dict) (removed : List String) :
    Dict × List String :=
  match keys with
  | [] => (args, removed)
  | k :: ks =>
    if dictContains args k then rukLoop ks (dictPop args k) (removed ++ [k])
    else rukLoop ks args removed

/-- `utils.remove_unsupported_keys(arguments, queue_type)`: returns the
filtered copy of the arguments and the list of removed keys. -/
def remove_unsupported_keys (arguments : Dict) (queue_type : String) :
    Dict × List String :=
  rukLoop (UNSUPPORTED_FEATURES queue_type) arguments []

/-- A key is absent from a dict when no pair carries it. -/
def keyAbsent (args : Dict) (k : String) : Prop :=
  ∀ p ∈ args, p.1 ≠ k

theorem dictContains_eq_false_iff (d : Dict) (k : String) :
    dictContains d k = false ↔ keyAbsent d k := by
  simp [dictContains, keyAbsent, List.any_eq_false]

theorem keyAbsent_dictPop (d : Dict) (k : String) : keyAbsent (dictPop d k) k := by
  intro p hp
  simp only [dictPop, List.mem_filter, Bool.not_eq_true', beq_eq_false_iff_ne,
    ne_eq] at hp
  exact hp.2

theorem keyAbsent_dictPop_of (d : Dict) (k k' : String) (h : keyAbsent d k) :
    keyAbsent (dictPop d k') k := by
  intro p hp
  simp only [dictPop, List.mem_filter] at hp
  exact h p hp.1

/-- A dict with no pair keyed `k` stays that way through `rukLoop`. -/
theorem rukLoop_preserves_absent (keys : List String) (args : Dict)
    (removed : List String) (k : String) (h : keyAbsent args k) :
    keyAbsent (rukLoop keys args removed).1 k := by
  induction keys generalizing args removed with
  | nil => simpa [rukLoop] using h
  | cons k' ks ih =>
    simp only [rukLoop]
    by_cases hc : dictContains args k'
    · simp only [hc, if_true]
      exact ih _ _ (keyAbsent_dictPop_of _ _ _ h)
    · simp only [hc, if_false]
      exact ih _ _ h

/-- After `rukLoop keys args removed`, none of the processed keys remains. -/
theorem rukLoop_removes_all (keys : List String) (args : Dict)
    (removed : List String) (k : String) (hk : k ∈ keys) :
    keyAbsent (rukLoop keys args removed).1 k := by
  induction keys generalizing args removed with
  | nil => cases hk
  | cons k' ks ih =>
    simp only [rukLoop]
    rcases List.mem_cons.mp hk with hkk | hkks
    · subst hkk
      by_cases hc : dictContains args k
      · simp only [hc, if_true]
        exact rukLoop_preserves_absent _ _ _ _ (keyAbsent_dictPop _ _)
      · simp only [hc, if_false]
        exact rukLoop_preserves_absent _ _ _ _
          ((dictContains_eq_false_iff _ _).mp (Bool.not_eq_true _ ▸ hc))
    · by_cases hc : dictContains args k'
      · simp only [hc, if_true]
        exact ih _ _ hkks
      · simp only [hc, if_false]
        exact ih _ _ hkks

/-- If none of the keys occurs in the dict, `rukLoop` is the identity. -/
theorem rukLoop_id (keys : List String) (args : Dict) (removed : List String)
    (h : ∀ k ∈ keys, keyAbsent args k) :
    rukLoop keys args removed = (args, removed) := by
  induction keys with
  | nil => rfl
  | cons k' ks ih =>
    simp only [rukLoop]
    have hc : dictContains args k' = false :=
      (dictContains_eq_false_iff _ _).mpr (h k' (List.mem_cons_self _ _))
    simp only [hc, Bool.false_eq_true, if_false]
    exact ih (fun k hk => h k (List.mem_cons_of_mem _ hk))

/-- C3: `remove_unsupported_keys` is idempotent in its mapping result: applying
it to its own filtered output for the same queue type returns that output
unchanged, with an empty removed-key list. -/
theorem remove_unsupported_keys_idempotent (a : Dict) (t : String) :
    remove_unsupported_keys (remove_unsupported_keys a t).1 t =
      ((remove_unsupported_keys a t).1, []) := by
  unfold remove_unsupported_keys
  apply rukLoop_id
  intro k hk
  exact rukLoop_removes_all _ _ _ _ hk

/-!
Heap-aware model of `remove_unsupported_keys`, capturing Python's object
identities: the `arguments` dict passed in and the `args_copy = arguments.copy()`
made inside the function are distinct store cells, and every `pop` mutates
only the copy. A `Store` is a list of dicts indexed by reference.
-/

/-- A store of dict objects, indexed by allocation order. -/
abbrev Store := List Dict

/-- Dereference: the dict held at `r`. -/
def readD (s : Store) (r : Nat) : Dict := s.getD r []

/-- In-place update of the dict held at `r`. -/
def writeD (s : Store) (r : Nat) (d : Dict) : Store := s.set r d

/-- The removal loop of `utils.remove_unsupported_keys`, acting by mutation on
the store cell `r` (the copy), as `args_copy.pop(key)` does. -/
def rukLoopSt (keys : List String) (s : Store) (r : Nat)
    (removed : List String) : Store × List String :=
  match keys with
  | [] => (s, removed)
  | k :: ks =>
    if dictContains (readD s r) k then
      rukLoopSt ks (writeD s r (dictPop (readD s r) k)) r (removed ++ [k])
    else rukLoopSt ks s r removed

/-- `utils.remove_unsupported_keys` over the store: `arguments.copy()` allocates
a fresh cell holding the same pairs, the loop pops unsupported keys from that
copy, and the function returns the copy's reference plus the removed keys. -/
def remove_unsupported_keys_st (s : Store) (argsRef : Nat)
    (queue_type : String) : Store × Nat × List String :=
  let copyRef := s.length
  let s1 := s ++ [readD s argsRef]
  let r := rukLoopSt (UNSUPPORTED_FEATURES queue_type) s1 copyRef []
  (r.1, copyRef, r.2)

/-- `rukLoopSt` writes only at its own reference. -/
theorem rukLoopSt_preserves_other (keys : List String) (s : Store) (r : Nat)
    (removed : List String) (j : Nat) (hj : j ≠ r) :
    readD (rukLoopSt keys s r removed).1 j = readD s j := by
  induction keys generalizing s removed with
  | nil => rfl
  | cons k ks ih =>
    simp only [rukLoopSt]
    by_cases hc : dictContains (readD s r) k
    · simp only [hc, if_true]
      rw [ih]
      simp only [writeD, readD, List.getD_eq_getElem?_getD]
      rw [List.getElem?_set_ne (fun h => hj h.symm)]
    · simp only [hc, if_false]
      exact ih _ _

/-- C9: argument filtering leaves its input dict untouched — after
`remove_unsupported_keys` runs, the cell passed in still holds exactly the
pairs it held before the call (only the freshly allocated copy is mutated). -/
theorem remove_unsupported_keys_preserves_input (s : Store) (r : Nat)
    (t : String) (hr : r < s.length) :
    readD (remove_unsupported_keys_st s r t).1 r = readD s r := by
  unfold remove_unsupported_keys_st
  rw [rukLoopSt_preserves_other _ _ _ _ _ (Nat.ne_of_lt hr)]
  simp only [readD, List.getD_eq_getElem?_getD]
  rw [List.getElem?_append_left hr]

/-- Witness for C9 at a concrete store: one dict holding an unsupported key
(`x-max-priority`), filtered for the quorum type, is unchanged in place. -/
theorem remove_unsupported_keys_preserves_input_witness :
    0 < ([[("x-max-priority", "10"), ("x-expires", "60")]] : Store).length ∧
      readD (remove_unsupported_keys_st
        [[("x-max-priority", "10"), ("x-expires", "60")]] 0 "quorum").1 0 =
      [("x-max-priority", "10"), ("x-expires", "60")] :=
  ⟨by decide,
   remove_unsupported_keys_preserves_input
     [[("x-max-priority", "10"), ("x-expires", "60")]] 0 "quorum" (by decide)⟩

/-!
Model of `message_utils.move_messages`. The AMQP data plane is an environment:
whether the passive declare of the destination succeeds, and the sequence of
yields of `source_channel.consume` — `none` for the `(None, None, None)`
inactivity-timeout yield, `some` for a delivered message carrying its delivery
tag, body, and whether `basic_publish` of that message succeeds. The result
records the return value and the side effects on both queues: tags consumed
from the source, tags acknowledged (hence removed from the source), tags
negatively acknowledged with requeue, and bodies published to the destination.
-/

/-- One delivered message in the consume stream. -/
structure MsgEv where
  tag : Nat
  body : String
  publishOk : Bool
deriving DecidableEq, Repr

/-- Environment for one `move_messages` call. -/
structure MoveEnv where
  destExists : Bool
  events : List (Option MsgEv)
deriving DecidableEq, Repr

/-- Result of one `move_messages` call: return value and data-plane effects. -/
structure MoveResult where
  ret : Int
  consumed : List Nat
  acked : List Nat
  nackedRequeued : List Nat
  published : List String
deriving DecidableEq, Repr

/-- The `for method, properties, body in source_channel.consume(...)` loop:
publish then ack on success; on publish failure nack with `requeue=True`,
stop consuming, and return `-1`. A `none` yield (inactivity timeout) breaks
the loop and the count is returned. -/
def moveLoop (events : List (Option MsgEv)) (moved : Nat) (consumed acked : List Nat)
    (published : List String) : MoveResult :=
  match events with
  | [] => ⟨Int.ofNat moved, consumed, acked, [], published⟩
  | none :: _ => ⟨Int.ofNat moved, consumed, acked, [], published⟩
  | some e :: rest =>
    if e.publishOk then
      moveLoop rest (moved + 1) (consumed ++ [e.tag]) (acked ++ [e.tag])
        (published ++ [e.body])
    else ⟨-1, consumed ++ [e.tag], acked, [e.tag], published⟩

/-- `message_utils.move_messages`: passive declare of the destination first
(`queue_declare(queue=target_queue, passive=True)`); on its failure return `-1`
at once, otherwise run the consume loop. -/
def move_messages (env : MoveEnv) : MoveResult :=
  if env.destExists = false then ⟨-1, [], [], [], []⟩
  else moveLoop env.events 0 [] [] []

/-- C6: when the passive existence check on the destination fails,
`move_messages` returns `-1` immediately and no message is consumed from the
source — nothing acknowledged, nothing requeued, nothing published. -/
theorem move_fails_fast_when_destination_missing (env : MoveEnv)
    (h : env.destExists = false) :
    (move_messages env).ret = -1 ∧ (move_messages env).consumed = [] ∧
      (move_messages env).acked = [] ∧ (move_messages env).nackedRequeued = [] ∧
      (move_messages env).published = [] := by
  simp [move_messages, h]

/-- Witness for C6: a destination that does not exist, with two messages
waiting in the source stream, moves nothing and returns `-1`. -/
theorem move_fails_fast_when_destination_missing_witness :
    (⟨false, [some ⟨1, "a", true⟩, some ⟨2, "b", true⟩, none]⟩ : MoveEnv).destExists
        = false ∧
      (move_messages ⟨false, [some ⟨1, "a", true⟩, some ⟨2, "b", true⟩, none]⟩).ret
        = -1 ∧
      (move_messages ⟨false, [some ⟨1, "a", true⟩, some ⟨2, "b", true⟩, none]⟩).consumed
        = [] ∧
      (move_messages ⟨false, [some ⟨1, "a", true⟩, some ⟨2, "b", true⟩, none]⟩).acked
        = [] ∧
      (move_messages ⟨false, [some ⟨1, "a", true⟩, some ⟨2, "b", true⟩, none]⟩).nackedRequeued
        = [] ∧
      (move_messages ⟨false, [some ⟨1, "a", true⟩, some ⟨2, "b", true⟩, none]⟩).published
        = [] :=
  ⟨rfl,
   (move_fails_fast_when_destination_missing _ rfl).1,
   (move_fails_fast_when_destination_missing _ rfl).2.1,
   (move_fails_fast_when_destination_missing _ rfl).2.2.1,
   (move_fails_fast_when_destination_missing _ rfl).2.2.2.1,
   (move_fails_fast_when_destination_missing _ rfl).2.2.2.2⟩

/-- Running the consume loop against a stream whose first publish failure is at
`e`, after successfully handled messages `pre`: the loop acknowledges and
publishes exactly the `pre` prefix, nacks `e` with requeue, and returns `-1`. -/
theorem moveLoop_publish_fail (pre : List MsgEv) (e : MsgEv)
    (rest : List (Option MsgEv)) (hpre : ∀ m ∈ pre, m.publishOk = true)
    (he : e.publishOk = false) (moved : Nat) (consumed acked : List Nat)
    (published : List String) :
    moveLoop (pre.map some ++ some e :: rest) moved consumed acked published =
      ⟨-1, consumed ++ pre.map (fun m => m.tag) ++ [e.tag],
        acked ++ pre.map (fun m => m.tag), [e.tag],
        published ++ pre.map (fun m => m.body)⟩ := by
  induction pre generalizing moved consumed acked published with
  | nil => simp [moveLoop, he]
  | cons m ms ih =>
    have hm : m.publishOk = true := hpre m (List.mem_cons_self _ _)
    simp only [List.map_cons, List.cons_append, moveLoop, hm, if_true,
      List.append_eq]
    rw [ih (fun x hx => hpre x (List.mem_cons_of_mem _ hx))]
    simp [List.append_assoc]

/-- C7: when the publish of a message fails, that message is nacked back to the
source with requeue, nothing further is consumed, `-1` is returned, and every
message already published and acknowledged before the failing one stays moved. -/
theorem publish_failure_nacks_and_stops (pre : List MsgEv) (e : MsgEv)
    (rest : List (Option MsgEv)) (hpre : ∀ m ∈ pre, m.publishOk = true)
    (he : e.publishOk = false) :
    (move_messages ⟨true, pre.map some ++ some e :: rest⟩).ret = -1 ∧
      (move_messages ⟨true, pre.map some ++ some e :: rest⟩).nackedRequeued
        = [e.tag] ∧
      (move_messages ⟨true, pre.map some ++ some e :: rest⟩).acked
        = pre.map (fun m => m.tag) ∧
      (move_messages ⟨true, pre.map some ++ some e :: rest⟩).published
        = pre.map (fun m => m.body) ∧
      (move_messages ⟨true, pre.map some ++ some e :: rest⟩).consumed
        = pre.map (fun m => m.tag) ++ [e.tag] := by
  simp only [move_messages]
  rw [moveLoop_publish_fail pre e rest hpre he]
  simp

/-- Witness for C7: two messages publish fine, the third fails; only the first
two end up acknowledged and published, the third is requeued, result `-1`. -/
theorem publish_failure_nacks_and_stops_witness :
    (move_messages ⟨true, [some ⟨1, "a", true⟩, some ⟨2, "b", true⟩,
        some ⟨3, "c", false⟩, some ⟨4, "d", true⟩]⟩).ret = -1 ∧
      (move_messages ⟨true, [some ⟨1, "a", true⟩, some ⟨2, "b", true⟩,
        some ⟨3, "c", false⟩, some ⟨4, "d", true⟩]⟩).nackedRequeued = [3] ∧
      (move_messages ⟨true, [some ⟨1, "a", true⟩, some ⟨2, "b", true⟩,
        some ⟨3, "c", false⟩, some ⟨4, "d", true⟩]⟩).acked = [1, 2] ∧
      (move_messages ⟨true, [some ⟨1, "a", true⟩, some ⟨2, "b", true⟩,
        some ⟨3, "c", false⟩, some ⟨4, "d", true⟩]⟩).published = ["a", "b"] ∧
      (move_messages ⟨true, [some ⟨1, "a", true⟩, some ⟨2, "b", true⟩,
        some ⟨3, "c", false⟩, some ⟨4, "d", true⟩]⟩).consumed = [1, 2, 3] :=
  publish_failure_nacks_and_stops [⟨1, "a", true⟩, ⟨2, "b", true⟩]
    ⟨3, "c", false⟩ [some ⟨4, "d", true⟩] (by decide) (by decide)

/-!
Model of `queue_migrator.migrate_queue`. Control-plane calls
(`create_queue`, `delete_queue`, `create_binding`) are recorded as actions in
a trace; their results, together with the results of the `get_queue_settings`
and `get_queue_bindings` fetches and the two data-plane relocations, come from
a `MigrateEnv`. The mirroring-policy lookup only logs and never changes the
control flow, so it carries no environment field. The procedure returns the
trace of issued control-plane actions and an outcome naming the program point
where it returned.
-/

/-- The queue settings fetched by `queue_utils.get_queue_settings`. -/
structure QueueSettings where
  durable : Bool
  arguments : Dict
  policy : Option String
deriving DecidableEq, Repr

/-- One element of the list fetched by `queue_utils.get_queue_bindings`.
An absent or empty `source` field — both falsy in Python — is modelled as
the empty string. -/
structure Binding where
  source : String
  routing_key : String
  arguments : Dict
deriving DecidableEq, Repr

/-- A control-plane call issued by `migrate_queue`. -/
inductive MigAction where
  | createQueue (name : String) (durable : Bool) (arguments : Dict)
  | moveMessages (source target : String)
  | deleteQueue (name : String) (ifEmpty : Bool)
  | createBinding (exchange queue routingKey : String) (arguments : Dict)
deriving DecidableEq, Repr

/-- The program point at which `migrate_queue` returned. -/
inductive MigOutcome where
  | abortSettingsNotFound
  | abortBindingsFetch
  | abortCreateTemp
  | abortForwardMove
  | abortDeleteOriginal
  | abortRecreate
  | abortRebind
  | abortBackMoveCheck
  | abortCountMismatch
  | warnDeleteTemp
  | completed
deriving DecidableEq, Repr

/-- `True` exactly on the outcomes printed as `[Migration halted]`. -/
def MigOutcome.isAborted : MigOutcome → Bool
  | .completed => false
  | .warnDeleteTemp => false
  | _ => true

/-- Results of the external calls made during one `migrate_queue` run, in
call order: the settings fetch, the bindings fetch, creation of the temporary
queue, the forward relocation's data plane, deletion of the original queue,
recreation of the original queue, each successive `create_binding` call, the
return relocation's data plane, and deletion of the temporary queue. -/
structure MigrateEnv where
  settings : Option QueueSettings
  bindings : Option (List Binding)
  createTempOk : Bool
  fwd : MoveEnv
  deleteOriginalOk : Bool
  recreateOk : Bool
  bindingOk : Nat → Bool
  back : MoveEnv
  deleteTempOk : Bool

/-- The `for binding in bindings` loop of `migrate_queue`: a binding with a
falsy `source` is skipped (the `if exchange and not create_binding(...)`
test short-circuits before calling `create_binding`); otherwise
`create_binding` is called, and its first failure stops the loop. Returns the
trace of issued `createBinding` actions and whether the loop ran to the end. -/
def rebindLoop (ok : Nat → Bool) (i : Nat) (name : String) :
    List Binding → List MigAction × Bool
  | [] => ([], true)
  | b :: rest =>
    if b.source ≠ "" then
      if ok i then
        let r := rebindLoop ok (i + 1) name rest
        (.createBinding b.source name b.routing_key b.arguments :: r.1, r.2)
      else ([.createBinding b.source name b.routing_key b.arguments], false)
    else rebindLoop ok i name rest

/-- `queue_migrator.migrate_queue(vhost, name, target_type)`: the full
orchestration, one `if`/`match` per source decision point, in source order.
The two `log_info`-only branches (zero messages found, zero moved back) and
the mirroring-policy log are kept out of the model as they return nothing and
change nothing. -/
def migrate_queue (env : MigrateEnv) (name target_type : String) :
    List MigAction × MigOutcome :=
  match env.settings with
  | none => ([], .abortSettingsNotFound)
  | some settings =>
    match env.bindings with
    | none => ([], .abortBindingsFetch)
    | some bindings =>
      let temp_name := name ++ "_temp_migrated"
      let args := dictSet (remove_unsupported_keys settings.arguments target_type).1
        "x-queue-type" target_type
      let tr1 : List MigAction := [.createQueue temp_name settings.durable args]
      if env.createTempOk = false then (tr1, .abortCreateTemp) else
      let tr2 := tr1 ++ [.moveMessages name temp_name]
      let messages_moved := (move_messages env.fwd).ret
      if messages_moved = -1 then (tr2, .abortForwardMove) else
      let tr3 := tr2 ++ [.deleteQueue name true]
      if env.deleteOriginalOk = false then (tr3, .abortDeleteOriginal) else
      let final_args :=
        dictSet (remove_unsupported_keys settings.arguments target_type).1
          "x-queue-type" target_type
      let tr4 := tr3 ++ [.createQueue name settings.durable final_args]
      if env.recreateOk = false then (tr4, .abortRecreate) else
      let rb := rebindLoop env.bindingOk 0 name bindings
      if rb.2 = false then (tr4 ++ rb.1, .abortRebind) else
      let tr5 := tr4 ++ rb.1 ++ [.moveMessages temp_name name]
      let moved_back := (move_messages env.back).ret
      if messages_moved = -1 then (tr5, .abortBackMoveCheck) else
      if moved_back ≠ messages_moved then (tr5, .abortCountMismatch) else
      let tr6 := tr5 ++ [.deleteQueue temp_name false]
      if env.deleteTempOk = false then (tr6, .warnDeleteTemp) else
      (tr6, .completed)

/-- The rebinding loop issues only `createBinding` actions. -/
theorem rebindLoop_no_delete (ok : Nat → Bool) (i : Nat) (name : String)
    (bs : List Binding) (x : String) (y : Bool) :
    MigAction.deleteQueue x y ∉ (rebindLoop ok i name bs).1 := by
  induction bs generalizing i with
  | nil => simp [rebindLoop]
  | cons b rest ih =>
    simp only [rebindLoop]
    by_cases hs : b.source = ""
    · simp only [hs, ne_eq, not_true_eq_false, if_false]
      exact ih i
    · simp only [ne_eq, hs, not_false_eq_true, if_true]
      by_cases hok : ok i = true
      · simp only [hok, if_true, List.mem_cons, not_or]
        exact ⟨by simp, ih (i + 1)⟩
      · simp only [hok, if_false]
        simp

/-- C1: whatever else happens, if the forward relocation reported `m ≥ 0`
messages moved and the return relocation reported `b ≥ 0` with `b ≠ m`, the
migration halts and `delete_queue` is never called on the temporary queue. -/
theorem migrate_aborts_on_count_mismatch (env : MigrateEnv) (name tt : String)
    (m b : Int)
    (hm : (move_messages env.fwd).ret = m) (hb : (move_messages env.back).ret = b)
    (hm0 : 0 ≤ m) (hb0 : 0 ≤ b) (hne : b ≠ m) :
    MigAction.deleteQueue (name ++ "_temp_migrated") false ∉
        (migrate_queue env name tt).1 ∧
      (migrate_queue env name tt).2.isAborted = true := by
  obtain ⟨st, bd, ct, fwd, dog, rc, bok, back, dt⟩ := env
  simp only at hm hb
  have hmne : ¬ (m = -1) := by omega
  cases st with
  | none => simp [migrate_queue, MigOutcome.isAborted]
  | some settings =>
    cases bd with
    | none => simp [migrate_queue, MigOutcome.isAborted]
    | some bindings =>
      simp only [migrate_queue, hm, hb]
      cases ct with
      | false => simp [MigOutcome.isAborted]
      | true =>
        simp only [Bool.true_eq_false, if_false, hmne, if_true]
        cases dog with
        | false => simp [MigOutcome.isAborted]
        | true =>
          simp only [Bool.true_eq_false, if_false]
          cases rc with
          | false => simp [MigOutcome.isAborted]
          | true =>
            simp only [Bool.true_eq_false, if_false]
            have hnd := rebindLoop_no_delete bok 0 name bindings
              (name ++ "_temp_migrated") false
            by_cases hrb : (rebindLoop bok 0 name bindings).2 = false
            · simp [hrb, MigOutcome.isAborted, hnd]
            · simp only [hrb, if_false]
              simp only [ne_eq, hne, not_false_eq_true, if_true]
              simp [MigOutcome.isAborted, hnd]

/-- Environment for the C1 witness: one message moved forward, none moved
back, every control-plane call succeeding. -/
def envC1 : MigrateEnv where
  settings := some ⟨true, [], none⟩
  bindings := some []
  createTempOk := true
  fwd := ⟨true, [some ⟨1, "a", true⟩, none]⟩
  deleteOriginalOk := true
  recreateOk := true
  bindingOk := fun _ => true
  back := ⟨true, [none]⟩
  deleteTempOk := true

/-- Witness for C1: forward count 1, return count 0 — the run halts with a
count mismatch and no delete of the temporary queue appears in the trace. -/
theorem migrate_aborts_on_count_mismatch_witness :
    (move_messages envC1.fwd).ret = 1 ∧ (move_messages envC1.back).ret = 0 ∧
      (0 : Int) ≤ 1 ∧ (0 : Int) ≤ 0 ∧ (0 : Int) ≠ 1 ∧
      (MigAction.deleteQueue ("orders" ++ "_temp_migrated") false ∉
          (migrate_queue envC1 "orders" "quorum").1 ∧
        (migrate_queue envC1 "orders" "quorum").2.isAborted = true) :=
  ⟨by decide, by decide, by decide, by decide, by decide,
   migrate_aborts_on_count_mismatch envC1 "orders" "quorum" 1 0 (by decide)
     (by decide) (by decide) (by decide) (by decide)⟩

/-- C10: when the run reaches the return move with a successful forward count
`m ≥ 0` and the return move fails with the sentinel `-1`, the re-checked
condition `messages_moved == -1` cannot fire (it tests the forward count, not
`moved_back`), so the abort happens in the count-mismatch branch, before any
delete of the temporary queue. -/
theorem back_move_failure_aborts_via_mismatch (env : MigrateEnv)
    (name tt : String) (s : QueueSettings) (bs : List Binding) (m : Int)
    (hset : env.settings = some s) (hbind : env.bindings = some bs)
    (hct : env.createTempOk = true)
    (hm : (move_messages env.fwd).ret = m) (hm0 : 0 ≤ m)
    (hdog : env.deleteOriginalOk = true) (hrc : env.recreateOk = true)
    (hrb : (rebindLoop env.bindingOk 0 name bs).2 = true)
    (hb : (move_messages env.back).ret = -1) :
    (migrate_queue env name tt).2 = .abortCountMismatch ∧
      MigAction.deleteQueue (name ++ "_temp_migrated") false ∉
        (migrate_queue env name tt).1 := by
  obtain ⟨st, bd, ct, fwd, dog, rc, bok, back, dt⟩ := env
  simp only at hset hbind hct hm hdog hrc hrb hb
  subst hset hbind hct hdog hrc
  have hmne : ¬ (m = -1) := by omega
  have hbne : (-1 : Int) ≠ m := by omega
  have hnd := rebindLoop_no_delete bok 0 name bs (name ++ "_temp_migrated") false
  simp only [migrate_queue, hm, hb, Bool.true_eq_false, if_false, hmne,
    if_true, hrb, hbne, ne_eq, not_false_eq_true]
  simp [hnd]

/-- Environment for the C10 witness: the forward move finds an empty source
(count 0); the return move fails its destination existence check (`-1`). -/
def envC10 : MigrateEnv where
  settings := some ⟨true, [], none⟩
  bindings := some []
  createTempOk := true
  fwd := ⟨true, [none]⟩
  deleteOriginalOk := true
  recreateOk := true
  bindingOk := fun _ => true
  back := ⟨false, []⟩
  deleteTempOk := true

/-- Witness for C10: the concrete run aborts in the mismatch branch with the
temporary queue left in place. -/
theorem back_move_failure_aborts_via_mismatch_witness :
    envC10.settings = some ⟨true, [], none⟩ ∧ envC10.bindings = some [] ∧
      envC10.createTempOk = true ∧ (move_messages envC10.fwd).ret = 0 ∧
      (0 : Int) ≤ 0 ∧ envC10.deleteOriginalOk = true ∧
      envC10.recreateOk = true ∧
      (rebindLoop envC10.bindingOk 0 "orders" []).2 = true ∧
      (move_messages envC10.back).ret = -1 ∧
      ((migrate_queue envC10 "orders" "quorum").2 = .abortCountMismatch ∧
        MigAction.deleteQueue ("orders" ++ "_temp_migrated") false ∉
          (migrate_queue envC10 "orders" "quorum").1) :=
  ⟨rfl, rfl, rfl, by decide, by decide, rfl, rfl, by decide, by decide,
   back_move_failure_aborts_via_mismatch envC10 "orders" "quorum"
     ⟨true, [], none⟩ [] 0 rfl rfl rfl (by decide) (by decide) rfl rfl
     (by decide) (by decide)⟩

/-- C5: a relocation whose source is empty — the consume stream opens with the
inactivity-timeout yield — returns count 0, and a forward count of 0 is not an
abort: the run continues past the transfer check and issues the conditional
delete of the original queue. -/
theorem empty_source_move_returns_zero_and_migration_continues
    (env : MigrateEnv) (name tt : String) (s : QueueSettings)
    (bs : List Binding) (rest : List (Option MsgEv))
    (hset : env.settings = some s) (hbind : env.bindings = some bs)
    (hct : env.createTempOk = true)
    (hfwd : env.fwd = ⟨true, none :: rest⟩) :
    (move_messages env.fwd).ret = 0 ∧
      MigAction.deleteQueue name true ∈ (migrate_queue env name tt).1 := by
  obtain ⟨st, bd, ct, fwd, dog, rc, bok, back, dt⟩ := env
  simp only at hset hbind hct hfwd
  subst hset hbind hct hfwd
  have hret : (move_messages (⟨true, none :: rest⟩ : MoveEnv)).ret = 0 := by
    simp [move_messages, moveLoop]
  refine ⟨hret, ?_⟩
  have hne : ¬ ((0 : Int) = -1) := by omega
  simp only [migrate_queue, hret, hne, if_false, if_true]
  cases dog with
  | false => simp
  | true =>
    simp only [Bool.true_eq_false, if_false]
    cases rc with
    | false => simp
    | true =>
      simp only [Bool.true_eq_false, if_false]
      by_cases hrb : (rebindLoop bok 0 name bs).2 = false
      · simp [hrb]
      · simp only [hrb, if_false]
        by_cases hmb : (move_messages back).ret ≠ 0
        · simp [hmb]
        · simp only [hmb, if_false]
          cases dt with
          | false => simp
          | true => simp

/-- Environment for the C5 witness: empty source queue, every call succeeding. -/
def envC5 : MigrateEnv where
  settings := some ⟨true, [("x-max-priority", "10")], none⟩
  bindings := some []
  createTempOk := true
  fwd := ⟨true, [none]⟩
  deleteOriginalOk := true
  recreateOk := true
  bindingOk := fun _ => true
  back := ⟨true, [none]⟩
  deleteTempOk := true

/-- Witness for C5: with nothing in the source queue the forward move returns
0 and the run goes on to the conditional delete of the original queue. -/
theorem empty_source_move_returns_zero_and_migration_continues_witness :
    envC5.settings = some ⟨true, [("x-max-priority", "10")], none⟩ ∧
      envC5.bindings = some [] ∧ envC5.createTempOk = true ∧
      envC5.fwd = ⟨true, [none]⟩ ∧
      ((move_messages envC5.fwd).ret = 0 ∧
        MigAction.deleteQueue "orders" true ∈
          (migrate_queue envC5 "orders" "quorum").1) :=
  ⟨rfl, rfl, rfl, rfl,
   empty_source_move_returns_zero_and_migration_continues envC5 "orders"
     "quorum" ⟨true, [("x-max-priority", "10")], none⟩ [] [] rfl rfl rfl rfl⟩

/-- Recognizer for binding-creation actions. -/
def MigAction.isCreateBinding : MigAction → Bool
  | .createBinding _ _ _ _ => true
  | _ => false

/-- If the rebinding loop runs to completion, every binding with a non-empty
source exchange has its `createBinding` action in the loop's trace. -/
theorem rebindLoop_complete (ok : Nat → Bool) (i : Nat) (name : String)
    (bs : List Binding) (hok : (rebindLoop ok i name bs).2 = true)
    (b : Binding) (hb : b ∈ bs) (hs : b.source ≠ "") :
    MigAction.createBinding b.source name b.routing_key b.arguments ∈
      (rebindLoop ok i name bs).1 := by
  induction bs generalizing i with
  | nil => cases hb
  | cons b' rest ih =>
    simp only [rebindLoop] at hok ⊢
    by_cases hs' : b'.source = ""
    · simp only [hs', ne_eq, not_true_eq_false, if_false] at hok ⊢
      rcases List.mem_cons.mp hb with hbb | hbr
      · subst hbb; exact absurd hs' hs
      · exact ih i hok hbr
    · simp only [ne_eq, hs', not_false_eq_true, if_true] at hok ⊢
      by_cases hoki : ok i = true
      · simp only [hoki, if_true] at hok ⊢
        rcases List.mem_cons.mp hb with hbb | hbr
        · subst hbb; exact List.mem_cons_self _ _
        · exact List.mem_cons_of_mem _ (ih (i + 1) hok hbr)
      · simp only [hoki, if_false] at hok
        cases hok

/-- Environment refuting C2 as stated: the fetched bindings list holds exactly
one binding, whose source exchange is empty (RabbitMQ reports the default
exchange's binding with `source == ""`); every external call succeeds. -/
def envC2 : MigrateEnv where
  settings := some ⟨true, [], none⟩
  bindings := some [⟨"", "orders", [("k", "v")]⟩]
  createTempOk := true
  fwd := ⟨true, [none]⟩
  deleteOriginalOk := true
  recreateOk := true
  bindingOk := fun _ => true
  back := ⟨true, [none]⟩
  deleteTempOk := true

/-- Counterexample to C2 as stated: the fetched list contains a binding, yet
the completed run's trace holds no `createBinding` action at all — the
`if exchange and not create_binding(...)` test short-circuits on the falsy
source and never issues the call for that binding. -/
theorem rebind_skips_empty_source_binding :
    envC2.bindings = some [⟨"", "orders", [("k", "v")]⟩] ∧
      (migrate_queue envC2 "orders" "quorum").1.all
        (fun a => !(MigAction.isCreateBinding a)) = true ∧
      (migrate_queue envC2 "orders" "quorum").2 = .completed := by
  refine ⟨rfl, ?_, ?_⟩ <;> decide

/-- C2 as amended: with the run having reached the REBIND step, (a) if the
rebinding loop completes, then every fetched binding whose source exchange is
non-empty has a `createBinding` call with its source exchange, routing key,
and arguments in the trace; (b) if some issued `create_binding` call fails,
the whole procedure aborts at the REBIND step. -/
theorem rebind_recreates_nonempty_source_bindings (env : MigrateEnv)
    (name tt : String) (s : QueueSettings) (bs : List Binding) (m : Int)
    (hset : env.settings = some s) (hbind : env.bindings = some bs)
    (hct : env.createTempOk = true)
    (hm : (move_messages env.fwd).ret = m) (hm0 : 0 ≤ m)
    (hdog : env.deleteOriginalOk = true) (hrc : env.recreateOk = true) :
    ((rebindLoop env.bindingOk 0 name bs).2 = true →
      ∀ b ∈ bs, b.source ≠ "" →
        MigAction.createBinding b.source name b.routing_key b.arguments ∈
          (migrate_queue env name tt).1) ∧
      ((rebindLoop env.bindingOk 0 name bs).2 = false →
        (migrate_queue env name tt).2 = .abortRebind) := by
  obtain ⟨st, bd, ct, fwd, dog, rc, bok, back, dt⟩ := env
  simp only at hset hbind hct hm hdog hrc ⊢
  subst hset hbind hct hdog hrc
  have hmne : ¬ (m = -1) := by omega
  constructor
  · intro hrb b hb hs
    have hmem := rebindLoop_complete bok 0 name bs hrb b hb hs
    simp only [migrate_queue, hm, Bool.true_eq_false, if_false, hmne, if_true,
      hrb]
    by_cases hmb : (move_messages back).ret ≠ m
    · simp [hmb, hmem]
    · simp only [hmb, if_false]
      cases dt with
      | false => simp [hmem]
      | true => simp [hmem]
  · intro hrb
    simp [migrate_queue, hm, hmne, hrb]

/-- Environment for the C2 witness: one binding from exchange `ex`. -/
def envC2w : MigrateEnv where
  settings := some ⟨true, [], none⟩
  bindings := some [⟨"ex", "rk", [("k", "v")]⟩]
  createTempOk := true
  fwd := ⟨true, [none]⟩
  deleteOriginalOk := true
  recreateOk := true
  bindingOk := fun _ => true
  back := ⟨true, [none]⟩
  deleteTempOk := true

/-- Witness for the amended C2: the binding from `ex` is recreated against the
recreated original queue with its routing key and arguments. -/
theorem rebind_recreates_nonempty_source_bindings_witness :
    envC2w.settings = some ⟨true, [], none⟩ ∧
      envC2w.bindings = some [⟨"ex", "rk", [("k", "v")]⟩] ∧
      envC2w.createTempOk = true ∧ (move_messages envC2w.fwd).ret = 0 ∧
      (0 : Int) ≤ 0 ∧ envC2w.deleteOriginalOk = true ∧
      envC2w.recreateOk = true ∧
      (rebindLoop envC2w.bindingOk 0 "orders"
        [⟨"ex", "rk", [("k", "v")]⟩]).2 = true ∧
      MigAction.createBinding "ex" "orders" "rk" [("k", "v")] ∈
        (migrate_queue envC2w "orders" "quorum").1 :=
  ⟨rfl, rfl, rfl, by decide, by decide, rfl, rfl, by decide,
   (rebind_recreates_nonempty_source_bindings envC2w "orders" "quorum"
       ⟨true, [], none⟩ [⟨"ex", "rk", [("k", "v")]⟩] 0 rfl rfl rfl (by decide)
       (by decide) rfl rfl).1 (by decide) ⟨"ex", "rk", [("k", "v")]⟩
     (by decide) (by decide)⟩

/-!
Model of `migration_planner.detect_migration_blockers` and the policy lookup.
-/

/-- One entry of `utils.SUPPORTED_SETTINGS`. -/
structure TypeSettings where
  durable : Bool
  supported : List String
  unsupported : List String
deriving DecidableEq, Repr

/-- `utils.SUPPORTED_SETTINGS`: the capability matrix; only the quorum type is
declared. Python indexes it with `SUPPORTED_SETTINGS[target_type]`, raising on
an unknown type, hence the `Option`. -/
def SUPPORTED_SETTINGS (target_type : String) : Option TypeSettings :=
  if target_type == "quorum" then
    some ⟨true,
      ["x-expires", "x-max-length", "x-message-ttl", "x-dead-letter-exchange",
       "x-dead-letter-routing-key", "x-max-length-bytes", "delivery-limit",
       "queue-initial-cluster-size", "dead-letter-strategy", "leader-locator"],
      UNSUPPORTED_FEATURES "quorum"⟩
  else none

/-- `utils.UNSUPPORTED_ARGUMENT_VALUES`, in the dict's insertion order. -/
def UNSUPPORTED_ARGUMENT_VALUES : List (String × List String) :=
  [("x-queue-mode", ["lazy"]), ("overflow", ["reject-publish-dlx"])]

/-- The queue fields `detect_migration_blockers` reads from its
`queue_info` dict. -/
structure QueueInfo where
  durable : Bool
  exclusive : Bool
  auto_delete : Bool
  arguments : Dict
deriving DecidableEq, Repr

/-- `migration_planner.detect_migration_blockers(queue_info, target_type)`:
the three blocker rules in source order, then the dropped-settings warnings,
then the unsupported-argument-value warnings. -/
def detect_migration_blockers (queue_info : QueueInfo) (target_type : String) :
    Option (List String × List String) :=
  (SUPPORTED_SETTINGS target_type).map (fun settings =>
    let blockers :=
      (if !queue_info.durable && settings.durable then
        ["Non-durable queues cannot be migrated."] else [])
      ++ (if queue_info.exclusive then
        ["Exclusive queues are not supported."] else [])
      ++ (if queue_info.auto_delete then
        ["Auto-delete queues cannot be migrated."] else [])
    let warnings :=
      (["x-queue-version", "x-queue-master-locator", "x-max-priority"].filter
        (fun arg => dictContains queue_info.arguments arg)).map
        (fun arg => s!"Setting '{arg}' will be removed during migration.")
      ++ UNSUPPORTED_ARGUMENT_VALUES.filterMap (fun kv =>
        match dictGet queue_info.arguments kv.1 with
        | some v =>
          if kv.2.contains v then
            some s!"Argument '{kv.1}={v}' is not compatible with Quorum Queues."
          else none
        | none => none)
    (blockers, warnings))

/-- C4: whenever the queue is exclusive, the blockers list of
`detect_migration_blockers` contains the exclusivity blocker, whatever the
other fields hold. -/
theorem exclusive_queue_always_blocked (q : QueueInfo) (tt : String)
    (bw : List String × List String) (hex : q.exclusive = true)
    (h : detect_migration_blockers q tt = some bw) :
    "Exclusive queues are not supported." ∈ bw.1 := by
  unfold detect_migration_blockers at h
  cases hs : SUPPORTED_SETTINGS tt with
  | none => rw [hs] at h; cases h
  | some st =>
    rw [hs] at h
    simp only [Option.map_some', Option.some.injEq] at h
    subst h
    simp [hex]

/-- Witness for C4: a durable, exclusive, auto-delete queue with a lazy queue
mode — the blockers list carries the exclusivity blocker. -/
theorem exclusive_queue_always_blocked_witness :
    (⟨true, true, true, [("x-queue-mode", "lazy")]⟩ : QueueInfo).exclusive
        = true ∧
      detect_migration_blockers ⟨true, true, true, [("x-queue-mode", "lazy")]⟩
          "quorum" =
        some (["Exclusive queues are not supported.",
               "Auto-delete queues cannot be migrated."],
              ["Argument 'x-queue-mode=lazy' is not compatible with Quorum Queues."]) ∧
      "Exclusive queues are not supported." ∈
        (["Exclusive queues are not supported.",
          "Auto-delete queues cannot be migrated."] : List String) :=
  ⟨rfl, by rfl,
   exclusive_queue_always_blocked ⟨true, true, true, [("x-queue-mode", "lazy")]⟩
     "quorum"
     (["Exclusive queues are not supported.",
       "Auto-delete queues cannot be migrated."],
      ["Argument 'x-queue-mode=lazy' is not compatible with Quorum Queues."])
     rfl (by rfl)⟩

/-!
Model of the policy lookup, identical in `migration_planner.get_queue_policy`
and `queue_utils.get_queue_policy`. Python's `re.match` is taken as a
parameter `m : pattern → text → Bool`, since only the selection logic around
it belongs to this repository.
-/

/-- A policy record: `pattern` is `none` when the dict has no `pattern` key,
`applyTo` is `policy.get("apply-to")`. -/
structure Policy where
  name : String
  pattern : Option String
  applyTo : Option String
deriving DecidableEq, Repr

/-- `get_queue_policy`: walk the policies in order; for one carrying a
`pattern` key with `apply-to` in `["queues", "all"]`, return it if the queue
name is truthy (non-empty) and the pattern matches; otherwise keep walking.
`None` when the walk ends. -/
def get_queue_policy (m : String → String → Bool) (queue_name : String) :
    List Policy → Option Policy
  | [] => none
  | p :: ps =>
    if (match p.pattern with | some _ => true | none => false) &&
        (p.applyTo == some "queues" || p.applyTo == some "all") then
      if queue_name ≠ "" && m (p.pattern.getD "") queue_name then some p
      else get_queue_policy m queue_name ps
    else get_queue_policy m queue_name ps

/-- The spec's selection predicate, stated from the spec's words: the policy's
pattern regex-matches the queue name and its apply-to field is `queues` or
`all`. -/
def policyEligibleSpec (m : String → String → Bool) (queue_name : String)
    (p : Policy) : Bool :=
  (match p.pattern with | some pat => m pat queue_name | none => false) &&
    (p.applyTo == some "queues" || p.applyTo == some "all")

/-- Python `re.match` for a pattern free of regex metacharacters: an anchored
match at the start of the text. Used only to instantiate the abstract matcher
at concrete inputs. -/
def reMatchLiteral (pat text : String) : Bool :=
  pat.data.isPrefixOf text.data

/-- Counterexample to C8 as stated: with an empty queue name, the single
policy satisfies both of the claim's conditions — `apply-to` is `queues` and
its pattern `""` matches the name (`re.match("", "")` succeeds) — yet the
lookup returns `None`, because the code also requires the queue name to be
truthy. -/
theorem policy_lookup_none_on_empty_name :
    policyEligibleSpec reMatchLiteral ""
        ⟨"p1", some "", some "queues"⟩ = true ∧
      get_queue_policy reMatchLiteral ""
        [⟨"p1", some "", some "queues"⟩] = none := by
  refine ⟨?_, ?_⟩ <;> decide

/-- C8 as amended: for a non-empty queue name, the lookup returns exactly the
first policy of the list satisfying the spec's two conditions, and `None`
(not an error) when no policy satisfies them. -/
theorem policy_lookup_first_match (m : String → String → Bool)
    (queue_name : String) (ps : List Policy) (hq : queue_name ≠ "") :
    get_queue_policy m queue_name ps =
      ps.find? (policyEligibleSpec m queue_name) := by
  induction ps with
  | nil => rfl
  | cons p rest ih =>
    simp only [get_queue_policy, List.find?]
    have hqb : (queue_name ≠ "") = True := by simp [hq]
    cases hpat : p.pattern with
    | none =>
      simp only [hpat, Bool.false_and, Bool.false_eq_true, if_false]
      rw [ih]
      have : policyEligibleSpec m queue_name p = false := by
        simp [policyEligibleSpec, hpat]
      rw [this]
    | some pat =>
      by_cases hap : (p.applyTo == some "queues" || p.applyTo == some "all")
          = true
      · simp only [hpat, hap, Bool.true_and, if_true]
        by_cases hm : m pat queue_name = true
        · have he : policyEligibleSpec m queue_name p = true := by
            simp [policyEligibleSpec, hpat, hm, hap]
          simp [hqb, hm, he, Option.getD]
        · have he : policyEligibleSpec m queue_name p = false := by
            simp [policyEligibleSpec, hpat, hap]
            simpa using hm
          simp only [Bool.not_eq_true] at hm
          simp [hqb, hm, he, Option.getD, ih]
      · simp only [Bool.not_eq_true] at hap
        have he : policyEligibleSpec m queue_name p = false := by
          simp only [policyEligibleSpec, hpat, hap, Bool.and_false]
        simp only [hpat, hap, Bool.true_and, Bool.false_eq_true, if_false]
        rw [ih, he]

/-- Witness for the amended C8: the first eligible policy (`p2`) wins over a
later one, and a list with no eligible policy yields `None`. -/
theorem policy_lookup_first_match_witness :
    ("orders" : String) ≠ "" ∧
      get_queue_policy reMatchLiteral "orders"
          [⟨"p1", some "ord", some "exchanges"⟩,
           ⟨"p2", some "ord", some "queues"⟩,
           ⟨"p3", some "", some "all"⟩] =
        ([⟨"p1", some "ord", some "exchanges"⟩,
          ⟨"p2", some "ord", some "queues"⟩,
          ⟨"p3", some "", some "all"⟩] : List Policy).find?
          (policyEligibleSpec reMatchLiteral "orders") :=
  ⟨by decide,
   policy_lookup_first_match reMatchLiteral "orders"
     [⟨"p1", some "ord", some "exchanges"⟩,
      ⟨"p2", some "ord", some "queues"⟩,
      ⟨"p3", some "", some "all"⟩] (by decide)⟩
